import Mathlib

/-!
Shallow embedding of `src/python/micro_eval/tuning/tune_relay_microtvm.py`.

The script is an orchestration wrapper around an external ML-compiler
framework.  The embedding models the script's own logic — the module-level
device dispatch, `get_num_devices`, `tune_model`, `update_rpc_server_dev_cfg`,
`get_tasks` and `main` — as pure functions.  Calls into the external framework
(tuners, RPC runners, cross compilers, task extraction) are modelled as
recorded configuration values or as input parameters, since their behaviour
is not part of this repository's file.  Python exceptions are modelled with
an explicit error type; Python global-dict mutation is modelled by explicit
state passing.
-/

namespace TuneRelayMicroTVM

/-- Python-level errors the script can raise.  `nameError n` models Python's
`NameError` raised when an undefined name `n` is looked up, `runtimeError m`
models `RuntimeError(m)`, `assertionError` models a failed `assert`. -/
inductive PyError where
  | nameError (name : String)
  | runtimeError (msg : String)
  | assertionError
deriving Repr, DecidableEq

/-- `listStartsWith pat s` is true when `pat` is an initial segment of `s`. -/
def listStartsWith : List Char → List Char → Bool
  | [], _ => true
  | _ :: _, [] => false
  | p :: ps, c :: cs => p == c && listStartsWith ps cs

/-- `listHasSub pat s` is true when `pat` occurs contiguously inside `s`. -/
def listHasSub (pat : List Char) : List Char → Bool
  | [] => listStartsWith pat []
  | c :: cs => listStartsWith pat (c :: cs) || listHasSub pat cs

/-- Python's `pat in s` test on strings (contiguous substring). -/
def strHasSub (s pat : String) : Bool := listHasSub pat.data s.data

/-- Device identifier exported by the external module
`tvm.micro.device.arm.stm32f746xx`; the script's own instructions (line 107)
pass `arm.stm32f746xx` as the device key. -/
def stm32f746xx_DEVICE_ID : String := "arm.stm32f746xx"

/-- Device identifier exported by the external module `tvm.micro.device.host`.
Only the fact that it differs from `stm32f746xx_DEVICE_ID` matters here. -/
def host_DEVICE_ID : String := "host"

/-- Line 121: `DEVICE_ID = host.DEVICE_ID`. -/
def DEVICE_ID : String := host_DEVICE_ID

/-- Lines 124-155, the module-level device dispatch, evaluated at import time
for a given device id.  On success it yields the `OP_STRATEGIES` list (one
template-key name per convolution).  Two branches raise `NameError`:

* the `stm32f746xx` branch executes `MICRO_HEADERS = CMSIS_HEADERS` (line 132)
  but `CMSIS_HEADERS` is never imported (lines 58-66 import `CMSIS_PATH` and
  `CMSIS_INCLUDE_PATHS` only), so the name lookup fails;
* the final `else` executes `raise RuntimeErorr(...)` (line 155), and
  `RuntimeErorr` — a misspelling of `RuntimeError` — is an undefined name, so
  Python raises `NameError`, not `RuntimeError`, and the interpolated message
  naming the unknown device id is never constructed. -/
def moduleDeviceDispatch (devId : String) : Except PyError (List String) :=
  if devId = stm32f746xx_DEVICE_ID then
    .error (.nameError "CMSIS_HEADERS")
  else if devId = host_DEVICE_ID then
    .ok ["direct", "direct", "direct"]
  else
    .error (.nameError "RuntimeErorr")

/-- Memory-section constraint kinds from the external
`stm32f746xx.MemConstraint` enum, as used by the script. -/
inductive MemConstraint where
  | ABSOLUTE_BYTES
  | WEIGHT
deriving Repr, DecidableEq

/-- A memory layout as produced by the external `gen_mem_layout`; since that
function lives outside this repository's file, the layout is modelled as the
ordered section list the script passes to it.  The one float in the script
(the heap weight `100.0`) is modelled as the natural number 100. -/
structure MemLayout where
  sections : List (String × Nat × MemConstraint)
deriving Repr, DecidableEq

/-- The external `micro.device.arm.stm32f746xx.gen_mem_layout`, modelled as
retaining its argument. -/
def gen_mem_layout (xs : List (String × Nat × MemConstraint)) : MemLayout :=
  ⟨xs⟩

/-- Section list passed to `gen_mem_layout` for template key `direct`
(lines 324-334). -/
def directMemSpec : List (String × Nat × MemConstraint) :=
  [("text", 18000, .ABSOLUTE_BYTES),
   ("rodata", 100, .ABSOLUTE_BYTES),
   ("data", 100, .ABSOLUTE_BYTES),
   ("bss", 600, .ABSOLUTE_BYTES),
   ("args", 4096, .ABSOLUTE_BYTES),
   ("heap", 100, .WEIGHT),
   ("workspace", 13000, .ABSOLUTE_BYTES),
   ("stack", 128, .ABSOLUTE_BYTES)]

/-- Section list passed to `gen_mem_layout` for template key `direct_simd`
(lines 336-345). -/
def directSimdMemSpec : List (String × Nat × MemConstraint) :=
  [("text", 18000, .ABSOLUTE_BYTES),
   ("rodata", 100, .ABSOLUTE_BYTES),
   ("data", 100, .ABSOLUTE_BYTES),
   ("bss", 600, .ABSOLUTE_BYTES),
   ("args", 4096, .ABSOLUTE_BYTES),
   ("heap", 100, .WEIGHT),
   ("workspace", 13000, .ABSOLUTE_BYTES),
   ("stack", 128, .ABSOLUTE_BYTES)]

/-- Section list passed to `gen_mem_layout` for template key `partial_im2col`
(lines 347-357). -/
def im2colMemSpec : List (String × Nat × MemConstraint) :=
  [("text", 18000, .ABSOLUTE_BYTES),
   ("rodata", 100, .ABSOLUTE_BYTES),
   ("data", 100, .ABSOLUTE_BYTES),
   ("bss", 600, .ABSOLUTE_BYTES),
   ("args", 4096, .ABSOLUTE_BYTES),
   ("heap", 100, .WEIGHT),
   ("workspace", 132000, .ABSOLUTE_BYTES),
   ("stack", 128, .ABSOLUTE_BYTES)]

/-- The mem layout assigned to `DEV_CONFIG` for each recognized template key
(the `if`/`elif` chain of lines 323-359); `none` models the `assert False`
of line 359. -/
def memLayoutFor (templateKey : String) : Option MemLayout :=
  if templateKey = "direct" then some (gen_mem_layout directMemSpec)
  else if templateKey = "direct_simd" then some (gen_mem_layout directSimdMemSpec)
  else if templateKey = "partial_im2col" then some (gen_mem_layout im2colMemSpec)
  else none

/-- Values stored in the `DEV_CONFIG` dictionary. -/
inductive CfgVal where
  | natVal (n : Nat)
  | strVal (s : String)
  | memLayoutVal (m : MemLayout)
deriving Repr, DecidableEq

/-- A Python dict with string keys, in insertion order. -/
abbrev DevDict := List (String × CfgVal)

/-- Python dict assignment `d[k] = v`: replaces the value in place when the
key is present (keeping its position), appends otherwise. -/
def dictSet (d : DevDict) (k : String) (v : CfgVal) : DevDict :=
  if d.any (fun p => p.1 == k) then
    d.map (fun p => if p.1 == k then (k, v) else p)
  else
    d ++ [(k, v)]

/-- Python dict lookup `d.get(k)`. -/
def dictGet (d : DevDict) (k : String) : Option CfgVal :=
  (d.find? (fun p => p.1 == k)).map (fun p => p.2)

/-- The process environment, as a list of variable/value pairs. -/
abbrev Env := List (String × String)

/-- Python's `k in os.environ`. -/
def envHasVar (env : Env) (k : String) : Bool :=
  env.any (fun p => p.1 == k)

/-- The warning printed by `update_rpc_server_dev_cfg` (line 317) when the
environment variable is absent. -/
def rpcCfgWarning : String :=
  "WARNING: `RPC_SERVER_DEV_CONFIG_BASE` not in environment. RPC server config will not be auto-updated"

/-- Lookup, in the module's global namespace, of the name
`RPC_SERVER_DEV_CONFIG_BASE` used by the f-string of line 364.  No such
global exists — line 361 binds the environment variable's value to the local
`dev_config_base`, which is never read — so the lookup raises `NameError`. -/
def lookupRpcServerDevConfigBase : Except PyError String :=
  .error (.nameError "RPC_SERVER_DEV_CONFIG_BASE")

/-- Outcome of a call to `update_rpc_server_dev_cfg`: the final state of the
module-level `DEV_CONFIG` dict (mutations survive a raised exception), what
was printed, whether `input()` blocked for operator acknowledgment, the JSON
files written as (path, dumped dict) pairs, and the exception if one was
raised. -/
structure UpdateResult where
  devConfig : DevDict
  printed : List String
  prompted : Bool
  filesWritten : List (String × DevDict)
  error : Option PyError
deriving Repr, DecidableEq

/-- The `for i in range(10)` loop of lines 362-365: each iteration assigns
`DEV_CONFIG['server_port'] = 6666 + i` and then evaluates the f-string
`f'.../{i}/utvm_dev_config.json'`, whose first interpolation looks up the
undefined global `RPC_SERVER_DEV_CONFIG_BASE` and raises.  Returns the final
dict, the files written, and the exception if any. -/
def writeCfgLoop (d : DevDict) : List Nat → DevDict × List (String × DevDict) × Option PyError
  | [] => (d, [], none)
  | i :: rest =>
    let d1 := dictSet d "server_port" (.natVal (6666 + i))
    match lookupRpcServerDevConfigBase with
    | .error e => (d1, [], some e)
    | .ok base =>
      let path := base ++ "/" ++ toString i ++ "/utvm_dev_config.json"
      let (d2, files, err) := writeCfgLoop d1 rest
      (d2, (path, d1) :: files, err)

/-- Lines 314-365, `update_rpc_server_dev_cfg(template_key)`.  When the
environment variable `MICRO_RPC_SERVER_DEV_CONFIG_BASE` is absent, it prints
a warning, blocks on `input()` and returns leaving `DEV_CONFIG` untouched.
Otherwise it replaces `DEV_CONFIG['mem_layout']` according to the template
key (`assert False` for an unrecognized key) and enters the file-writing
loop. -/
def update_rpc_server_dev_cfg (env : Env) (templateKey : String)
    (devConfig : DevDict) : UpdateResult :=
  if envHasVar env "MICRO_RPC_SERVER_DEV_CONFIG_BASE" = false then
    { devConfig := devConfig, printed := [rpcCfgWarning], prompted := true,
      filesWritten := [], error := none }
  else
    match memLayoutFor templateKey with
    | none =>
      { devConfig := devConfig, printed := [], prompted := false,
        filesWritten := [], error := some .assertionError }
    | some ml =>
      let d1 := dictSet devConfig "mem_layout" (.memLayoutVal ml)
      let (d2, files, err) := writeCfgLoop d1 (List.range 10)
      { devConfig := d2, printed := [], prompted := false,
        filesWritten := files, error := err }

/-- Line 159: `N_TRIAL = 500`. -/
def N_TRIAL : Nat := 500

/-- Line 160: `EARLY_STOPPING = 250`. -/
def EARLY_STOPPING : Nat := 250

/-- Line 164: `N_PER_TRIAL = 15`. -/
def N_PER_TRIAL : Nat := 15

/-- Line 165: `N_PARALLEL = None`. -/
def N_PARALLEL : Option Nat := none

/-- Line 167: `TRACKER_ADDR = '0.0.0.0'`. -/
def TRACKER_ADDR : String := "0.0.0.0"

/-- Line 168: `TRACKER_PORT = 9190`. -/
def TRACKER_PORT : Nat := 9190

/-- Line 173: `TIMEOUT = 0` (timeouts disabled because JTAG is slow). -/
def TIMEOUT : Nat := 0

/-- The counting loop of `get_num_devices` (lines 220-226) over the lines of
the tracker's text summary: it breaks at the first line containing
`Queue Status` and otherwise counts the lines containing `dev_id`. -/
def numDevicesLoop (devId : String) : List String → Nat
  | [] => 0
  | line :: rest =>
    if strHasSub line "Queue Status" then 0
    else if strHasSub line devId then numDevicesLoop devId rest + 1
    else numDevicesLoop devId rest

/-- Lines 217-226, `get_num_devices(dev_id)`.  The tracker connection is
external, so the text summary it returns is taken as an input; the split on
newlines and the counting loop are the script's own. -/
def get_num_devices (trackerSummary devId : String) : Nat :=
  numDevicesLoop devId (trackerSummary.splitOn "\n")

/-- The count described by the specification's words: the number of lines of
the summary that contain the device identifier and occur strictly before the
first line containing `Queue Status`. -/
def specNumDevices (trackerSummary devId : String) : Nat :=
  ((trackerSummary.splitOn "\n").takeWhile
    (fun line => !strHasSub line "Queue Status")).countP
    (fun line => strHasSub line devId)

/-- The tuner classes the script imports (line 39); `tune_model` instantiates
`GATuner` (line 262). -/
inductive TunerKind where
  | XGBTuner
  | GATuner
  | RandomTuner
  | GridSearchTuner
deriving Repr, DecidableEq

/-- Configuration handed to the external `autotvm.RPCRunner` (lines 242-248). -/
structure RunnerCfg where
  key : String
  trackerAddr : String
  trackerPort : Nat
  nParallel : Nat
  number : Nat
  timeout : Nat
deriving Repr, DecidableEq

/-- An autotuning task as `tune_model` consumes it; only the size of its
configuration space (Python `len(task.config_space)`) is read. -/
structure Task where
  configSpaceSize : Nat
deriving Repr, DecidableEq

/-- Observable effects of `tune_model`, in program order: one `tuneTask` per
task (the tuner kind, the `n_trial` and `early_stopping` arguments, and the
log file its `log_to_file` callback appends to), then the
`custom_pick_best(tmp, final, top_k)` call, then the `os.remove`. -/
inductive TuneEvent where
  | tuneTask (tuner : TunerKind) (nTrial earlyStopping : Nat) (logFile : String)
  | pickBest (src dst : String) (topK : Nat)
  | removeFile (path : String)
deriving Repr, DecidableEq

/-- Outcome of `tune_model`: the computed worker count, the RPC-runner
configuration, and the ordered effect trace. -/
structure TuneModelRun where
  nParallel : Nat
  runner : RunnerCfg
  events : List TuneEvent
deriving Repr, DecidableEq

/-- Lines 229-283, `tune_model(tasks, log_file_name)`.  The tracker summary is
an input (it reaches the function only through `get_num_devices`).  Since
`N_PARALLEL` is `None`, the worker count is the device count; the runner is
built from the module constants; each task is tuned with a fresh `GATuner`,
`n_trial = min(N_TRIAL, len(task.config_space))`,
`early_stopping = EARLY_STOPPING`, logging to `log_file_name + '.tmp'`; then
`custom_pick_best(tmp, log_file_name, top_k=5)` persists the best records and
the temporary file is removed. -/
def tune_model (tasks : List Task) (logFileName trackerSummary : String) :
    TuneModelRun :=
  let nParallel :=
    match N_PARALLEL with
    | none => get_num_devices trackerSummary DEVICE_ID
    | some n => n
  let runner : RunnerCfg :=
    { key := DEVICE_ID, trackerAddr := TRACKER_ADDR, trackerPort := TRACKER_PORT,
      nParallel := nParallel, number := N_PER_TRIAL, timeout := TIMEOUT }
  let tmpLogFile := logFileName ++ ".tmp"
  let tuneEvents := tasks.map (fun task =>
    TuneEvent.tuneTask .GATuner (min N_TRIAL task.configSpaceSize)
      EARLY_STOPPING tmpLogFile)
  { nParallel := nParallel, runner := runner,
    events := tuneEvents ++
      [.pickBest tmpLogFile logFileName 5, .removeFile tmpLogFile] }

/-- Lines 368-419, `get_tasks(template_key)`.  The graph generation
(`gen_cifar10_cnn`) and the task extraction (`collect_conv_tasks`) live
outside this file, so the extraction's result is an input parameter
`extracted`.  The function asserts `False` for a template key other than
`direct`, `direct_simd` or `partial_im2col` (line 391), and asserts
`len(tasks) == 3` after extraction (line 407). -/
def get_tasks (templateKey : String) (extracted : List Task) :
    Except PyError (List Task) :=
  if templateKey = "direct" ∨ templateKey = "direct_simd" ∨
      templateKey = "partial_im2col" then
    if extracted.length = 3 then .ok extracted
    else .error .assertionError
  else
    .error .assertionError

/-- Line 424: `TEMPLATE_KEYS = ['direct']` (the longer list of line 423 is
commented out). -/
def TEMPLATE_KEYS : List String := ["direct"]

/-- The three calls `main` issues per template key, in program order. -/
inductive MainStep where
  | updateCfg (templateKey : String)
  | extractTasks (templateKey : String)
  | tuneModel (logFileName : String)
deriving Repr, DecidableEq

/-- Outcome of `main`: the calls it performed, in order, and the exception
that aborted it, if any. -/
structure MainRun where
  steps : List MainStep
  error : Option PyError
deriving Repr, DecidableEq

/-- One iteration of `main`'s loop (lines 426-432) for one template key:
compute the log file name, update the RPC server device config, extract the
tasks, tune.  An exception raised by a callee propagates and stops the
iteration; `DEV_CONFIG` mutations made before the exception survive. -/
def mainPhase (env : Env) (extracted : List Task) (trackerSummary : String)
    (devConfig : DevDict) (templateKey : String) :
    DevDict × List MainStep × Option PyError :=
  let logFileName := DEVICE_ID ++ "." ++ templateKey ++ ".e2e.log"
  let u := update_rpc_server_dev_cfg env templateKey devConfig
  match u.error with
  | some e => (u.devConfig, [.updateCfg templateKey], some e)
  | none =>
    match get_tasks templateKey extracted with
    | .error e =>
      (u.devConfig, [.updateCfg templateKey, .extractTasks templateKey], some e)
    | .ok tasks =>
      let _run := tune_model tasks logFileName trackerSummary
      (u.devConfig,
       [.updateCfg templateKey, .extractTasks templateKey,
        .tuneModel logFileName],
       none)

/-- `main`'s loop over `TEMPLATE_KEYS`, threading `DEV_CONFIG` and stopping
at the first exception. -/
def mainLoop (env : Env) (extracted : List Task) (trackerSummary : String) :
    DevDict → List String → List MainStep × Option PyError
  | _, [] => ([], none)
  | d, k :: rest =>
    match mainPhase env extracted trackerSummary d k with
    | (_, steps, some e) => (steps, some e)
    | (d1, steps, none) =>
      let (steps2, err2) := mainLoop env extracted trackerSummary d1 rest
      (steps ++ steps2, err2)

/-- Lines 422-432, `main()`: iterate the phases over `TEMPLATE_KEYS`,
starting from the module-level `DEV_CONFIG` (an input here, since
`host.generate_config` is external). -/
def mainRun (env : Env) (extracted : List Task) (trackerSummary : String)
    (devConfig : DevDict) : MainRun :=
  let (steps, err) := mainLoop env extracted trackerSummary devConfig TEMPLATE_KEYS
  { steps := steps, error := err }

/-- A concrete environment in which `MICRO_RPC_SERVER_DEV_CONFIG_BASE` is set,
used to evaluate `update_rpc_server_dev_cfg` on its file-writing path. -/
def envWithBase : Env := [("MICRO_RPC_SERVER_DEV_CONFIG_BASE", "/tmp/utvm-cfgs")]

/-- A representative initial `DEV_CONFIG` (the real one comes from the
external `host.generate_config`): a device id, a mem layout and a server
port, as the RPC-server config files carry. -/
def hostDevConfig0 : DevDict :=
  [("device_id", .strVal "host"),
   ("mem_layout", .memLayoutVal (gen_mem_layout [])),
   ("server_port", .natVal 0)]

/-! ## Theorems -/

/-- The counting loop of `get_num_devices` computes the number of lines that
contain the device id among the lines strictly before the first line
containing `Queue Status` (a line containing both is a break, not a count). -/
theorem numDevicesLoop_eq_countP (devId : String) (lines : List String) :
    numDevicesLoop devId lines =
      (lines.takeWhile (fun l => !strHasSub l "Queue Status")).countP
        (fun l => strHasSub l devId) := by
  induction lines with
  | nil => rfl
  | cons line rest ih =>
    by_cases h : strHasSub line "Queue Status" = true
    · simp [numDevicesLoop, h]
    · simp only [Bool.not_eq_true] at h
      by_cases hd : strHasSub line devId = true
      · simp [numDevicesLoop, h, hd, ih, List.countP_cons]
      · simp only [Bool.not_eq_true] at hd
        simp [numDevicesLoop, h, hd, ih, List.countP_cons]

/-- C1: the claim says an unrecognized module-level `DEVICE_ID` raises a
`RuntimeError` mentioning the unknown device id.  The code instead raises
`NameError`: line 155 spells the exception class `RuntimeErorr`, an undefined
name, so the intended error (and its message naming the device id) is never
constructed.  Evaluated here at the unrecognized id `some.unknown.device`. -/
theorem moduleDispatch_unknown_device_nameError :
    moduleDeviceDispatch "some.unknown.device" =
      .error (.nameError "RuntimeErorr") ∧
    ∀ msg : String, moduleDeviceDispatch "some.unknown.device" ≠
      .error (.runtimeError msg) := by
  refine ⟨rfl, fun msg h => ?_⟩
  rw [show moduleDeviceDispatch "some.unknown.device" =
    Except.error (PyError.nameError "RuntimeErorr") from rfl] at h
  simp at h

/-- C2: the claim says that with `MICRO_RPC_SERVER_DEV_CONFIG_BASE` set,
`update_rpc_server_dev_cfg` writes ten JSON config files (ports 6666..6675)
for each recognized template key.  The code writes none: the path f-string of
line 364 reads the undefined global `RPC_SERVER_DEV_CONFIG_BASE` (the
environment value was bound to the unused local `dev_config_base`), so the
first loop iteration raises `NameError`.  Evaluated for all three recognized
template keys. -/
theorem update_rpc_server_dev_cfg_writes_no_files :
    (update_rpc_server_dev_cfg envWithBase "direct" hostDevConfig0).filesWritten = [] ∧
    (update_rpc_server_dev_cfg envWithBase "direct_simd" hostDevConfig0).filesWritten = [] ∧
    (update_rpc_server_dev_cfg envWithBase "partial_im2col" hostDevConfig0).filesWritten = [] ∧
    (update_rpc_server_dev_cfg envWithBase "direct" hostDevConfig0).error =
      some (.nameError "RPC_SERVER_DEV_CONFIG_BASE") :=
  ⟨rfl, rfl, rfl, rfl⟩

/-- C3: when `MICRO_RPC_SERVER_DEV_CONFIG_BASE` is absent from the
environment, `update_rpc_server_dev_cfg` prints the warning, blocks on
`input()` for operator acknowledgment, and returns with `DEV_CONFIG`
untouched, no file written and no exception — for every template key and
every starting `DEV_CONFIG`. -/
theorem update_rpc_server_dev_cfg_env_absent (env : Env) (templateKey : String)
    (devConfig : DevDict)
    (h : envHasVar env "MICRO_RPC_SERVER_DEV_CONFIG_BASE" = false) :
    update_rpc_server_dev_cfg env templateKey devConfig =
      { devConfig := devConfig, printed := [rpcCfgWarning], prompted := true,
        filesWritten := [], error := none } := by
  simp [update_rpc_server_dev_cfg, h]

/-- Witness for C3 at a concrete environment without the variable, the
template key `direct_simd` and the representative starting config. -/
theorem update_rpc_server_dev_cfg_env_absent_witness :
    update_rpc_server_dev_cfg [("PATH", "/usr/bin")] "direct_simd" hostDevConfig0 =
      { devConfig := hostDevConfig0, printed := [rpcCfgWarning], prompted := true,
        filesWritten := [], error := none } :=
  update_rpc_server_dev_cfg_env_absent [("PATH", "/usr/bin")] "direct_simd"
    hostDevConfig0 (by decide)

/-- C4: `tune_model` first records tuning results (one tuner run per task,
each logging with `EARLY_STOPPING` to `log_file_name + '.tmp'`), then calls
`custom_pick_best(tmp, log_file_name, top_k=5)` to persist the top 5 records
per workload into the final log file, then deletes the temporary file — in
that order, for every task list and log file name. -/
theorem tune_model_log_file_lifecycle (tasks : List Task)
    (logFileName trackerSummary : String) :
    ∃ recs : List TuneEvent,
      (tune_model tasks logFileName trackerSummary).events =
        recs ++ [TuneEvent.pickBest (logFileName ++ ".tmp") logFileName 5,
                 TuneEvent.removeFile (logFileName ++ ".tmp")] ∧
      ∀ e ∈ recs, ∃ tuner nTrial,
        e = TuneEvent.tuneTask tuner nTrial EARLY_STOPPING (logFileName ++ ".tmp") := by
  refine ⟨tasks.map (fun task =>
    TuneEvent.tuneTask .GATuner (min N_TRIAL task.configSpaceSize)
      EARLY_STOPPING (logFileName ++ ".tmp")), ?_, ?_⟩
  · rfl
  intro e he
  obtain ⟨t, _, rfl⟩ := List.mem_map.mp he
  exact ⟨_, _, rfl⟩

/-- C5: `get_num_devices` returns the number of summary lines containing the
device id that occur strictly before the first line containing
`Queue Status`; and since `N_PARALLEL` is `None`, `tune_model` takes this
count (at `DEVICE_ID`) as its number of parallel workers. -/
theorem get_num_devices_count_and_parallel (trackerSummary devId : String)
    (tasks : List Task) (logFileName : String) :
    get_num_devices trackerSummary devId = specNumDevices trackerSummary devId ∧
    N_PARALLEL = none ∧
    (tune_model tasks logFileName trackerSummary).nParallel =
      get_num_devices trackerSummary DEVICE_ID :=
  ⟨numDevicesLoop_eq_countP devId (trackerSummary.splitOn "\n"), rfl, rfl⟩

/-- C6: with `N_TRIAL = 500` and `EARLY_STOPPING = 250`, every extracted task
is tuned with `n_trial = min(500, len(task.config_space))` and
`early_stopping = 250` (the i-th tuner run corresponds to the i-th task). -/
theorem tune_model_trial_bounds (tasks : List Task)
    (logFileName trackerSummary : String) :
    N_TRIAL = 500 ∧ EARLY_STOPPING = 250 ∧
    (tune_model tasks logFileName trackerSummary).events.take tasks.length =
      tasks.map (fun task =>
        TuneEvent.tuneTask TunerKind.GATuner (min 500 task.configSpaceSize) 250
          (logFileName ++ ".tmp")) := by
  refine ⟨rfl, rfl, ?_⟩
  have h : tasks.length = (tasks.map (fun task =>
      TuneEvent.tuneTask TunerKind.GATuner (min 500 task.configSpaceSize) 250
        (logFileName ++ ".tmp"))).length := (List.length_map _ _).symm
  rw [show (tune_model tasks logFileName trackerSummary).events =
      (tasks.map (fun task =>
        TuneEvent.tuneTask TunerKind.GATuner (min 500 task.configSpaceSize) 250
          (logFileName ++ ".tmp"))) ++
      [TuneEvent.pickBest (logFileName ++ ".tmp") logFileName 5,
       TuneEvent.removeFile (logFileName ++ ".tmp")] from rfl, h, List.take_left]

/-- C7: `tune_model` dispatches measurements through an RPC runner keyed by
`DEVICE_ID` at tracker address `0.0.0.0`, port `9190`, with the
per-measurement timeout set to `0`, and every tuner it constructs is a
`GATuner`. -/
theorem tune_model_ga_tuner_rpc_runner (tasks : List Task)
    (logFileName trackerSummary : String) :
    (tune_model tasks logFileName trackerSummary).runner.key = DEVICE_ID ∧
    (tune_model tasks logFileName trackerSummary).runner.trackerAddr = "0.0.0.0" ∧
    (tune_model tasks logFileName trackerSummary).runner.trackerPort = 9190 ∧
    (tune_model tasks logFileName trackerSummary).runner.timeout = 0 ∧
    ∀ e ∈ (tune_model tasks logFileName trackerSummary).events,
      ∀ tuner nTrial es lf, e = TuneEvent.tuneTask tuner nTrial es lf →
        tuner = TunerKind.GATuner := by
  refine ⟨rfl, rfl, rfl, rfl, ?_⟩
  intro e he tuner nTrial es lf heq
  subst heq
  rcases List.mem_append.mp he with hm | hm
  · obtain ⟨t, _, ht⟩ := List.mem_map.mp hm
    injection ht with h1 h2 h3 h4
    exact h1.symm
  · simp at hm

/-- C8: `get_tasks` either returns exactly 3 tasks or fails with an assertion
error: whatever the external extraction yields, a returned list has length 3
(the `assert len(tasks) == 3` of line 407), the only possible error is the
assertion error, and every template key other than `direct`, `direct_simd`
and `partial_im2col` hits the `assert False` of line 391. -/
theorem get_tasks_three_or_assertion (templateKey : String)
    (extracted : List Task) :
    (∀ tasks, get_tasks templateKey extracted = .ok tasks → tasks.length = 3) ∧
    ((∃ tasks, get_tasks templateKey extracted = .ok tasks) ∨
      get_tasks templateKey extracted = .error .assertionError) ∧
    (templateKey ≠ "direct" → templateKey ≠ "direct_simd" →
      templateKey ≠ "partial_im2col" →
      get_tasks templateKey extracted = .error .assertionError) := by
  unfold get_tasks
  by_cases hk : templateKey = "direct" ∨ templateKey = "direct_simd" ∨
      templateKey = "partial_im2col"
  · by_cases hl : extracted.length = 3
    · simp [hk, hl]
      tauto
    · simp [hk, hl]
  · simp [hk]

/-- C9: the claim says that with the environment variable set and a
recognized template key, `update_rpc_server_dev_cfg` replaces
`DEV_CONFIG['mem_layout']`, leaves the other entries unchanged, and last sets
`'server_port'` to 6675.  Evaluated at template key `direct`: the in-place
`mem_layout` replacement and the preservation of the other entries hold, but
the write loop raises `NameError` on its first iteration, so `server_port` is
last set to 6666, never 6675. -/
theorem update_rpc_server_dev_cfg_mutation_at_failure :
    dictGet (update_rpc_server_dev_cfg envWithBase "direct" hostDevConfig0).devConfig
        "mem_layout" = some (.memLayoutVal (gen_mem_layout directMemSpec)) ∧
    dictGet (update_rpc_server_dev_cfg envWithBase "direct" hostDevConfig0).devConfig
        "server_port" = some (.natVal 6666) ∧
    dictGet (update_rpc_server_dev_cfg envWithBase "direct" hostDevConfig0).devConfig
        "device_id" = dictGet hostDevConfig0 "device_id" ∧
    (update_rpc_server_dev_cfg envWithBase "direct" hostDevConfig0).error =
      some (.nameError "RPC_SERVER_DEV_CONFIG_BASE") ∧
    (6666 : Nat) ≠ 6675 :=
  ⟨rfl, rfl, rfl, rfl, by decide⟩

/-- C10: `main` performs exactly one tuning phase, for the single template
key `direct`, in the order update-config, extract-tasks, tune, and the final
log file of that phase is `DEVICE_ID + '.direct.e2e.log'` with `DEVICE_ID`
the host device identifier.  Stated on the phase's non-raising path: the
environment variable is absent (so the config update returns after its
warning instead of raising) and the extraction yields the asserted 3 tasks. -/
theorem main_single_direct_phase (env : Env) (extracted : List Task)
    (trackerSummary : String) (devConfig : DevDict)
    (henv : envHasVar env "MICRO_RPC_SERVER_DEV_CONFIG_BASE" = false)
    (hlen : extracted.length = 3) :
    TEMPLATE_KEYS = ["direct"] ∧ DEVICE_ID = host_DEVICE_ID ∧
    mainRun env extracted trackerSummary devConfig =
      { steps := [MainStep.updateCfg "direct", MainStep.extractTasks "direct",
                  MainStep.tuneModel (DEVICE_ID ++ ".direct.e2e.log")],
        error := none } := by
  refine ⟨rfl, rfl, ?_⟩
  simp [mainRun, mainLoop, mainPhase, update_rpc_server_dev_cfg, henv,
    get_tasks, hlen, TEMPLATE_KEYS, DEVICE_ID, host_DEVICE_ID]

/-- Witness for C10 at a concrete environment without the variable, a
3-element extraction result, a concrete tracker summary and the
representative starting config. -/
theorem main_single_direct_phase_witness :
    TEMPLATE_KEYS = ["direct"] ∧ DEVICE_ID = host_DEVICE_ID ∧
    mainRun [("PATH", "/usr/bin")] [⟨8⟩, ⟨600⟩, ⟨1⟩] "host\nQueue Status"
        hostDevConfig0 =
      { steps := [MainStep.updateCfg "direct", MainStep.extractTasks "direct",
                  MainStep.tuneModel (DEVICE_ID ++ ".direct.e2e.log")],
        error := none } :=
  main_single_direct_phase [("PATH", "/usr/bin")] [⟨8⟩, ⟨600⟩, ⟨1⟩]
    "host\nQueue Status" hostDevConfig0 (by decide) (by decide)

end TuneRelayMicroTVM
